import Mathlib

/-!
Shallow embedding of the careersupport-org/backend roadmap service
(src/src/roadmap/service.py and src/src/common/exception_router.py),
covering the streaming-generation-with-deferred-persistence core
(RoadmapService.get_step_guide, RoadmapService._wait_and_save_guide)
and the surrounding CRUD operations the claims mention.

Conventions of the embedding:
* Python `Optional[str]` columns become `Option String`; Python truthiness
  of such a value (`if step.guide:`) is `pyTruthy`.
* The LLM chains are black boxes: a streaming chain is a `GenSource`
  (the finite token sequence it emits, plus an optional terminal
  exception message), a non-streaming chain is an `Except String r`
  input (error = the exception `ainvoke` would raise).
* The async generator `generate` inside `get_step_guide` is embedded as
  the list of primitive actions it performs when driven: appends to the
  shared `collected_tokens` list, yields of wire events, and the
  `streaming_completed.set()` call.  Early client disconnect (the
  consumer stops pulling) is `runPulls k`: the executed prefix of that
  action list when the consumer pulls exactly `k` events and then
  closes the generator.  `GeneratorExit`/`CancelledError` raised at the
  suspended yield is a `BaseException`, which the source's
  `except Exception` clause does not catch, so nothing after the last
  delivered yield runs.
* SQLAlchemy autoincrement primary keys are modelled as list-length
  allocation; `nanoid.generate` is an injected id supply `Nat → String`.
  Tag rows are represented by their `name` strings on the owning step
  (the service only ever reads `tag.name`).
-/

namespace CareerSupport

/-! ### Data model (src/src/roadmap/models.py, src/src/auth/models.py) -/

structure KakaoUser where
  id : Nat
  unique_id : String
  profile : String
  deriving DecidableEq, Repr

structure Roadmap where
  id : Nat
  unique_id : String
  user_id : Nat
  title : String
  is_subroadmap : Bool
  deriving DecidableEq, Repr

structure RoadmapStep where
  id : Nat
  unique_id : String
  roadmap_id : Nat
  step : Nat
  title : String
  description : String
  tags : List String
  guide : Option String
  is_bookmarked : Bool
  sub_roadmap_uid : Option String
  deriving DecidableEq, Repr

structure LearningResource where
  id : Nat
  unique_id : String
  step_id : Nat
  url : String
  deriving DecidableEq, Repr

/-- The relational store: users, roadmaps, steps, learning resources and
the roadmap_subroadmap association table (pairs of roadmap uids). -/
structure DB where
  users : List KakaoUser
  roadmaps : List Roadmap
  steps : List RoadmapStep
  resources : List LearningResource
  subroadmap_links : List (String × String)
  deriving DecidableEq, Repr

/-- `db.query(RoadmapStep).filter(RoadmapStep.unique_id == uid).first()` -/
def findStep (db : DB) (uid : String) : Option RoadmapStep :=
  db.steps.find? fun s => s.unique_id == uid

/-- `db.query(Roadmap).filter(Roadmap.unique_id == uid).first()` -/
def findRoadmap (db : DB) (uid : String) : Option Roadmap :=
  db.roadmaps.find? fun r => r.unique_id == uid

/-- Python truthiness of an `Optional[str]` value:
`None` and `""` are falsy, every other string is truthy. -/
def pyTruthy : Option String → Bool
  | none => false
  | some s => s != ""

/-- The string held by a truthy `Optional[str]` value. -/
def pyStr : Option String → String
  | none => ""
  | some s => s

/-! ### Exceptions (src/src/common/exceptions.py, src/src/auth/exceptions.py,
src/src/roadmap/exceptions.py) and the app-wide handlers
(src/src/common/exception_router.py). -/

/-- The exception classes raised by the service layer.  `generic` is the
built-in `Exception` base class raised directly (no domain subclass). -/
inductive PyExc where
  | generic (msg : String)
  | entityNotFound (msg : String)
  | forbidden (msg : String)
  | unauthorized (msg : String)
  | jwtError (msg : String)
  | creatorMaxCount (msg : String)
  | modelInvocation (msg : String)
  deriving DecidableEq, Repr

/-- HTTP status produced by the `@app.exception_handler` registrations in
src/src/common/exception_router.py; FastAPI dispatches to the most
specific registered class, and the bare `Exception` handler returns 500. -/
def handlerStatus : PyExc → Nat
  | .creatorMaxCount _ => 400
  | .unauthorized _ => 401
  | .jwtError _ => 401
  | .forbidden _ => 403
  | .entityNotFound _ => 404
  | .modelInvocation _ => 500
  | .generic _ => 500

/-! ### The streaming core of `get_step_guide` -/

/-- A streaming LLM chain (`step_guide_chain.astream(...)`) as a black
box: it emits `tokens` (the `chunk.content` values) in order and then
either terminates normally (`fail = none`) or raises an exception whose
`str` is `e` (`fail = some e`). -/
structure GenSource where
  tokens : List String
  fail : Option String
  deriving DecidableEq, Repr

/-- One wire event of the server-push stream: the `token` framing
`data: ...token...` or the `error` framing `data: ...error...`. -/
inductive StreamEvent where
  | token (t : String)
  | error (msg : String)
  deriving DecidableEq, Repr

/-- A primitive action performed by the `generate` async generator:
appending to the shared `collected_tokens` list, yielding a token
event, calling `streaming_completed.set()`, or yielding the terminal
error event. -/
inductive RelayAction where
  | append (t : String)
  | yieldToken (t : String)
  | setSignal
  | yieldError (msg : String)
  deriving DecidableEq, Repr

/-- The `async for` loop body of `generate`: for each chunk,
`collected_tokens.append(token)` then `yield` of the token event;
after the loop the continuation `tail` runs. -/
def relayLoop (tokens : List String) (tail : List RelayAction) : List RelayAction :=
  match tokens with
  | [] => tail
  | t :: ts => RelayAction.append t :: RelayAction.yieldToken t :: relayLoop ts tail

/-- The complete action sequence of the `generate` async generator when
driven to completion.  On normal exhaustion of the source the `try`
block ends with `streaming_completed.set()`.  If the source raises
after emitting its tokens, the `except Exception` clause runs
`streaming_completed.set()` and then yields one error event. -/
def generateTrace (src : GenSource) : List RelayAction :=
  relayLoop src.tokens
    (match src.fail with
     | none => [RelayAction.setSignal]
     | some e => [RelayAction.setSignal, RelayAction.yieldError e])

/-- The wire events a relay action sequence delivers, in order. -/
def eventsOf (tr : List RelayAction) : List StreamEvent :=
  tr.filterMap fun a =>
    match a with
    | RelayAction.yieldToken t => some (StreamEvent.token t)
    | RelayAction.yieldError e => some (StreamEvent.error e)
    | _ => none

/-- The contents of `collected_tokens` after the actions `tr` ran. -/
def appendedTokens (tr : List RelayAction) : List String :=
  tr.filterMap fun a => match a with | RelayAction.append t => some t | _ => none

/-- The token events delivered by the actions `tr`, as token values. -/
def yieldedTokens (tr : List RelayAction) : List String :=
  tr.filterMap fun a => match a with | RelayAction.yieldToken t => some t | _ => none

/-- How many times `streaming_completed.set()` ran in `tr`. -/
def countSet (tr : List RelayAction) : Nat :=
  (tr.filter fun a => a == RelayAction.setSignal).length

/-- Actions that hand a value to the consumer (a `yield` statement). -/
def isYield : RelayAction → Bool
  | RelayAction.yieldToken _ => true
  | RelayAction.yieldError _ => true
  | _ => false

/-- The actions actually executed when the consumer pulls exactly `k`
events from the generator and then closes it.  Execution proceeds until
the `k`-th yield suspends the generator; closing it there throws
`GeneratorExit` at the suspension point, which `except Exception` does
not catch, so no further action runs.  If the trace has fewer than `k`
yields the generator exhausts and the whole trace runs. -/
def runPulls : Nat → List RelayAction → List RelayAction
  | 0, _ => []
  | _ + 1, [] => []
  | k + 1, a :: rest =>
      if isYield a then a :: runPulls k rest
      else a :: runPulls (k + 1) rest

/-- Concatenation of the `token` field values of a wire event list
(the `error` field of an error event is not a token). -/
def concatTokens (evs : List StreamEvent) : String :=
  String.join (evs.filterMap fun e =>
    match e with | StreamEvent.token t => some t | _ => none)

/-! ### `get_step_guide` (src/src/roadmap/service.py lines 258-316) -/

/-- The replay generator `generate_guide_in_db` for a cache hit:
`for chunk in step.guide:` iterates over the *string* `step.guide`
character by character, yielding one token event per character. -/
def generate_guide_in_db (guide : String) : List StreamEvent :=
  guide.toList.map fun c => StreamEvent.token c.toString

/-- Everything observable about one call of `get_step_guide`:
whether it raised before returning a stream, the wire events the
returned generator yields when fully drained, the relay action trace
(empty unless live generation ran), how many times `step_guide_chain`
was invoked, and whether the shared accumulator, the completion event
and the `_wait_and_save_guide` background task were created. -/
structure GuideCall where
  raised : Option PyExc
  stream : List StreamEvent
  relayTrace : List RelayAction
  chainInvocations : Nat
  accumCreated : Bool
  signalCreated : Bool
  saveTaskStarted : Bool
  deriving DecidableEq, Repr

/-- `RoadmapService.get_step_guide`: look up the step (raise the bare
`Exception("Roadmap step not found")` if absent); if `step.guide` is
truthy return the per-character replay generator; otherwise create
`collected_tokens`, `streaming_completed`, start the
`_wait_and_save_guide` task and return the live `generate` generator,
invoking `step_guide_chain.astream` once. -/
def get_step_guide (db : DB) (step_uid : String) (src : GenSource) : GuideCall :=
  match findStep db step_uid with
  | none =>
      { raised := some (PyExc.generic "Roadmap step not found")
        stream := []
        relayTrace := []
        chainInvocations := 0
        accumCreated := false
        signalCreated := false
        saveTaskStarted := false }
  | some step =>
      if pyTruthy step.guide then
        { raised := none
          stream := generate_guide_in_db (pyStr step.guide)
          relayTrace := []
          chainInvocations := 0
          accumCreated := false
          signalCreated := false
          saveTaskStarted := false }
      else
        { raised := none
          stream := eventsOf (generateTrace src)
          relayTrace := generateTrace src
          chainInvocations := 1
          accumCreated := true
          signalCreated := true
          saveTaskStarted := true }

/-- `RoadmapService._wait_and_save_guide`, from the point where
`streaming_completed` has been observed set: join the collected tokens
with `"".join`, open a fresh session, look the step up by uid and, if
found, write the joined string as its guide and commit; if not found,
log and skip.  `tokens` is the content of `collected_tokens` at the
time of the read. -/
def wait_and_save_guide (db : DB) (tokens : List String) (step_uid : String) : DB :=
  { db with
    steps := db.steps.map fun s =>
      if s.unique_id == step_uid then { s with guide := some (String.join tokens) } else s }

/-! ### Surrounding CRUD operations of the service -/

/-- `UserService.get_user_by_uid` (src/src/auth/service.py): select the
user by uid, raising `UnauthorizedException("User not found")` if the
row is absent. -/
def get_user_by_uid (db : DB) (user_uid : String) : Except PyExc KakaoUser :=
  match db.users.find? (fun u => u.unique_id == user_uid) with
  | none => Except.error (PyExc.unauthorized "User not found")
  | some u => Except.ok u

/-- Observable outcome of `recommend_learning_resources`: the exception
raised (if any), the database after the call, the number of
`recommend_resource_chain` invocations, and the returned (uid, url)
schema list. -/
structure RecommendCall where
  raised : Option PyExc
  db : DB
  chainInvocations : Nat
  resources : List (String × String)
  deriving DecidableEq, Repr

/-- `RoadmapService.recommend_learning_resources`: look up the step
(raising the bare `Exception("Roadmap step not found")` if absent),
return the existing resources if any, otherwise invoke the chain once
(`chain = none` models `ainvoke` raising, wrapped into
`ModelInvocationException`), store and return the new resources.
`ids n` supplies the n-th `nanoid.generate(size=10)` value. -/
def recommend_learning_resources (db : DB) (step_uid : String)
    (chain : Option (List String)) (ids : Nat → String) : RecommendCall :=
  match db.steps.find? (fun s => s.unique_id == step_uid) with
  | none => { raised := some (PyExc.generic "Roadmap step not found")
              db := db, chainInvocations := 0, resources := [] }
  | some step =>
      let existing := db.resources.filter fun r => r.step_id == step.id
      if !existing.isEmpty then
        { raised := none, db := db, chainInvocations := 0
          resources := existing.map fun r => (r.unique_id, r.url) }
      else
        match chain with
        | none =>
            { raised := some (PyExc.modelInvocation "학습 리소스 생성 중 오류가 발생했습니다.")
              db := db, chainInvocations := 1, resources := [] }
        | some urls =>
            let newRs := urls.enum.map fun p =>
              { id := db.resources.length + p.1, unique_id := ids p.1
                step_id := step.id, url := p.2 : LearningResource }
            { raised := none
              db := { db with resources := db.resources ++ newRs }
              chainInvocations := 1
              resources := newRs.map fun r => (r.unique_id, r.url) }

/-- One step of a roadmap detail response
(`RoadmapStepSchema` in src/src/roadmap/schemas.py). -/
structure RoadmapStepSchema where
  id : String
  step : Nat
  title : String
  description : String
  tags : List String
  subRoadMapId : Option String
  isBookmarked : Bool
  deriving DecidableEq, Repr

/-- A roadmap detail response (`RoadmapDetailSchema`). -/
structure RoadmapDetailSchema where
  id : String
  title : String
  steps : List RoadmapStepSchema
  deriving DecidableEq, Repr

/-- `RoadmapService.get_roadmap_by_uid`: look the roadmap up by uid,
raising `EntityNotFoundException` if absent, then build the detail
schema from its steps sorted by step number. -/
def get_roadmap_by_uid (db : DB) (roadmap_uid : String) :
    Except PyExc RoadmapDetailSchema :=
  match findRoadmap db roadmap_uid with
  | none => Except.error (PyExc.entityNotFound "로드맵을 찾을 수 없습니다.")
  | some roadmap =>
      let steps := (db.steps.filter fun s => s.roadmap_id == roadmap.id).map fun s =>
        { id := s.unique_id, step := s.step, title := s.title
          description := s.description, tags := s.tags
          subRoadMapId := s.sub_roadmap_uid, isBookmarked := s.is_bookmarked
          : RoadmapStepSchema }
      Except.ok
        { id := roadmap.unique_id, title := roadmap.title
          steps := steps.mergeSort fun a b => a.step ≤ b.step }

/-- `RoadmapService.toggle_bookmark`: look the step up
(`EntityNotFoundException` if absent), check the requester is the
creator of the step's roadmap (`ForbiddenException` otherwise), flip
`is_bookmarked`, commit, and return the new flag.  The two inner
lookups traverse the ORM relations `step.roadmap` and `roadmap.user`;
a dangling relation would surface as a bare attribute error, modelled
as a `generic` exception (unreachable under foreign-key integrity). -/
def toggle_bookmark (db : DB) (step_uid current_user_uid : String) :
    Except PyExc (DB × Bool) :=
  match findStep db step_uid with
  | none => Except.error (PyExc.entityNotFound "로드맵 Step을 조회할 수 없습니다.")
  | some step =>
      match db.roadmaps.find? (fun r => r.id == step.roadmap_id) with
      | none => Except.error (PyExc.generic "AttributeError")
      | some roadmap =>
          match db.users.find? (fun u => u.id == roadmap.user_id) with
          | none => Except.error (PyExc.generic "AttributeError")
          | some owner =>
              match get_user_by_uid db owner.unique_id with
              | Except.error e => Except.error e
              | Except.ok creator =>
                  if creator.unique_id != current_user_uid then
                    Except.error (PyExc.forbidden "북마크 상태를 변경할 권한이 없습니다.")
                  else
                    let newFlag := !step.is_bookmarked
                    Except.ok
                      ({ db with steps := db.steps.map fun s =>
                          if s.unique_id == step_uid then { s with is_bookmarked := newFlag }
                          else s },
                       newFlag)

/-- `RoadmapService.add_learning_resource`: look the step up
(`EntityNotFoundException` if absent), add a resource row with a fresh
nanoid, commit, return its (uid, url) schema. -/
def add_learning_resource (db : DB) (step_uid url : String) (newUid : String) :
    Except PyExc (DB × (String × String)) :=
  match findStep db step_uid with
  | none => Except.error (PyExc.entityNotFound "로드맵 Step을 조회할 수 없습니다.")
  | some step =>
      let resource := { id := db.resources.length, unique_id := newUid
                        step_id := step.id, url := url : LearningResource }
      Except.ok ({ db with resources := db.resources ++ [resource] },
                 (resource.unique_id, resource.url))

/-- `RoadmapService.remove_learning_resource`: look the resource up by
uid (`EntityNotFoundException` if absent), delete it, commit. -/
def remove_learning_resource (db : DB) (resource_uid : String) :
    Except PyExc DB :=
  match db.resources.find? (fun r => r.unique_id == resource_uid) with
  | none => Except.error (PyExc.entityNotFound "학습 리소스를 조회할 수 없습니다.")
  | some _ =>
      Except.ok { db with
        resources := db.resources.filter fun r => !(r.unique_id == resource_uid) }

/-! ### Roadmap creation and the creator limit -/

/-- One step object in a roadmap/subroadmap chain result. -/
structure StepData where
  step : Nat
  title : String
  description : String
  tags : List String
  deriving DecidableEq, Repr

/-- The structured result of `roadmap_create_chain.ainvoke` /
`subroadmap_create_chain.ainvoke`. -/
structure RoadmapChainResult where
  title : String
  steps : List StepData
  deriving DecidableEq, Repr

/-- `RoadmapService._check_roadmap_creator`: true when the user already
owns 3 or more `Roadmap` rows.  Subroadmaps are `Roadmap` rows of the
same user, so they count; the query does not filter on
`is_subroadmap`. -/
def check_roadmap_creator (db : DB) (user_id : Nat) : Bool :=
  decide (3 ≤ (db.roadmaps.filter fun r => r.user_id == user_id).length)

/-- Observable outcome of `create_roadmap` / `create_subroadmap`: the
exception raised (if any), the database after the call, the number of
creation chain invocations, and the returned uid. -/
structure CreateCall where
  raised : Option PyExc
  db : DB
  chainInvocations : Nat
  returned : Option String
  deriving DecidableEq, Repr

/-- The steps a chain result turns into, appended to `roadmap_id = rid`.
Step row `i` gets numeric id `stepBase + i` and uid `ids (i + 1)`;
tags are stored by name on the step. -/
def buildSteps (stepBase rid : Nat) (ids : Nat → String)
    (stepsData : List StepData) : List RoadmapStep :=
  stepsData.enum.map fun p =>
    { id := stepBase + p.1, unique_id := ids (p.1 + 1), roadmap_id := rid
      step := p.2.step, title := p.2.title, description := p.2.description
      tags := p.2.tags, guide := none, is_bookmarked := false
      sub_roadmap_uid := none : RoadmapStep }

/-- `RoadmapService.create_roadmap`: `_check_roadmap_creator` first
(it resolves the user and raises `UnauthorizedException` if absent),
raising `RoadmapCreatorMaxCountException` at the limit; otherwise
invoke `roadmap_create_chain` once (`chain = Except.error e` models
`ainvoke` raising, which propagates unwrapped) and insert the new
roadmap with its steps in one commit, returning the roadmap uid. -/
def create_roadmap (db : DB) (user_uid : String)
    (chain : Except String RoadmapChainResult) (ids : Nat → String) : CreateCall :=
  match get_user_by_uid db user_uid with
  | Except.error e => { raised := some e, db := db, chainInvocations := 0, returned := none }
  | Except.ok user =>
      if check_roadmap_creator db user.id then
        { raised := some (PyExc.creatorMaxCount "3개 이상의 로드맵 및 서브 로드맵을 생성할 수 없습니다.")
          db := db, chainInvocations := 0, returned := none }
      else
        match chain with
        | Except.error e =>
            { raised := some (PyExc.generic e), db := db, chainInvocations := 1, returned := none }
        | Except.ok res =>
            let roadmap := { id := db.roadmaps.length, unique_id := ids 0
                             user_id := user.id, title := res.title
                             is_subroadmap := false : Roadmap }
            { raised := none
              db := { db with
                      roadmaps := db.roadmaps ++ [roadmap]
                      steps := db.steps ++ buildSteps db.steps.length roadmap.id ids res.steps }
              chainInvocations := 1
              returned := some roadmap.unique_id }

/-- `RoadmapService.create_subroadmap`: `_check_roadmap_creator` on the
requesting user first, raising `RoadmapCreatorMaxCountException` at the
limit; then look the step up (`EntityNotFoundException` if absent),
invoke `subroadmap_create_chain` once, create the subroadmap under the
parent roadmap's owner, point the step's `sub_roadmap_uid` at it,
append the generated steps, commit, and insert the
`roadmap_subroadmap` association row. -/
def create_subroadmap (db : DB) (step_uid current_user_uid : String)
    (chain : Except String RoadmapChainResult) (ids : Nat → String) : CreateCall :=
  match get_user_by_uid db current_user_uid with
  | Except.error e => { raised := some e, db := db, chainInvocations := 0, returned := none }
  | Except.ok user =>
      if check_roadmap_creator db user.id then
        { raised := some (PyExc.creatorMaxCount "3개 이상의 로드맵 및 서브 로드맵을 생성할 수 없습니다.")
          db := db, chainInvocations := 0, returned := none }
      else
        match findStep db step_uid with
        | none =>
            { raised := some (PyExc.entityNotFound "로드맵 Step을 조회할 수 없습니다.")
              db := db, chainInvocations := 0, returned := none }
        | some step =>
            match db.roadmaps.find? (fun r => r.id == step.roadmap_id) with
            | none => { raised := some (PyExc.generic "AttributeError")
                        db := db, chainInvocations := 0, returned := none }
            | some roadmap =>
                match chain with
                | Except.error e =>
                    { raised := some (PyExc.generic e)
                      db := db, chainInvocations := 1, returned := none }
                | Except.ok res =>
                    let subroadmap := { id := db.roadmaps.length, unique_id := ids 0
                                        user_id := roadmap.user_id, title := res.title
                                        is_subroadmap := false : Roadmap }
                    { raised := none
                      db := { db with
                              roadmaps := db.roadmaps ++ [subroadmap]
                              steps := (db.steps.map fun s =>
                                  if s.unique_id == step_uid then
                                    { s with sub_roadmap_uid := some subroadmap.unique_id }
                                  else s)
                                ++ buildSteps db.steps.length subroadmap.id ids res.steps
                              subroadmap_links :=
                                db.subroadmap_links ++ [(roadmap.unique_id, subroadmap.unique_id)] }
                      chainInvocations := 1
                      returned := some subroadmap.unique_id }

/-! ### Concrete fixtures used to instantiate the claims -/

/-- A step with no stored guide. -/
def freshStep : RoadmapStep :=
  { id := 0, unique_id := "step123", roadmap_id := 0, step := 1, title := "Step title"
    description := "Step description", tags := ["tag1"], guide := none
    is_bookmarked := false, sub_roadmap_uid := none }

def C1db : DB :=
  { users := [], roadmaps := [], steps := [freshStep], resources := [], subroadmap_links := [] }

def C1src : GenSource := { tokens := ["Hello", " world"], fail := none }

def C2src : GenSource := { tokens := ["Hello", " world"], fail := none }

/-- A step whose guide "Hello" is already stored. -/
def cachedStep : RoadmapStep :=
  { id := 0, unique_id := "step123", roadmap_id := 0, step := 1, title := "Step title"
    description := "Step description", tags := ["tag1"], guide := some "Hello"
    is_bookmarked := false, sub_roadmap_uid := none }

def C3db : DB :=
  { users := [], roadmaps := [], steps := [cachedStep], resources := [], subroadmap_links := [] }

def C3src : GenSource := { tokens := ["never"], fail := none }

/-- The scenario step of the claim: stored guide "Hello world". -/
def C4step : RoadmapStep :=
  { id := 0, unique_id := "step123", roadmap_id := 0, step := 1, title := "Step title"
    description := "Step description", tags := [], guide := some "Hello world"
    is_bookmarked := false, sub_roadmap_uid := none }

def C4db : DB :=
  { users := [], roadmaps := [], steps := [C4step], resources := [], subroadmap_links := [] }

def C4src : GenSource := { tokens := [], fail := none }

def emptyDB : DB :=
  { users := [], roadmaps := [], steps := [], resources := [], subroadmap_links := [] }

def C5src : GenSource := { tokens := [], fail := none }

def C6src : GenSource := { tokens := ["Hello"], fail := some "boom" }

def C7db : DB :=
  { users := [], roadmaps := [], steps := [freshStep], resources := [], subroadmap_links := [] }

def C7src : GenSource := { tokens := ["Hello"], fail := some "boom" }

def C8src : GenSource := { tokens := ["a"], fail := none }

def C9src : GenSource := { tokens := [], fail := none }

/-- A user who already owns three roadmaps (one of them a subroadmap). -/
def C10user : KakaoUser := { id := 1, unique_id := "user1", profile := "profile" }

def C10db : DB :=
  { users := [C10user]
    roadmaps :=
      [ { id := 0, unique_id := "r0", user_id := 1, title := "Roadmap 0", is_subroadmap := false }
      , { id := 1, unique_id := "r1", user_id := 1, title := "Roadmap 1", is_subroadmap := false }
      , { id := 2, unique_id := "r2", user_id := 1, title := "Subroadmap 2", is_subroadmap := true } ]
    steps := [], resources := [], subroadmap_links := [] }

def C10chain : Except String RoadmapChainResult :=
  Except.ok { title := "New roadmap", steps := [] }

/-! ### Lemmas about the relay action trace -/

@[simp] theorem appendedTokens_nil : appendedTokens [] = [] := rfl

@[simp] theorem appendedTokens_cons_append (t : String) (tr : List RelayAction) :
    appendedTokens (RelayAction.append t :: tr) = t :: appendedTokens tr := rfl

@[simp] theorem appendedTokens_cons_yieldToken (t : String) (tr : List RelayAction) :
    appendedTokens (RelayAction.yieldToken t :: tr) = appendedTokens tr := rfl

@[simp] theorem appendedTokens_cons_setSignal (tr : List RelayAction) :
    appendedTokens (RelayAction.setSignal :: tr) = appendedTokens tr := rfl

@[simp] theorem appendedTokens_cons_yieldError (e : String) (tr : List RelayAction) :
    appendedTokens (RelayAction.yieldError e :: tr) = appendedTokens tr := rfl

@[simp] theorem yieldedTokens_nil : yieldedTokens [] = [] := rfl

@[simp] theorem yieldedTokens_cons_append (t : String) (tr : List RelayAction) :
    yieldedTokens (RelayAction.append t :: tr) = yieldedTokens tr := rfl

@[simp] theorem yieldedTokens_cons_yieldToken (t : String) (tr : List RelayAction) :
    yieldedTokens (RelayAction.yieldToken t :: tr) = t :: yieldedTokens tr := rfl

@[simp] theorem yieldedTokens_cons_setSignal (tr : List RelayAction) :
    yieldedTokens (RelayAction.setSignal :: tr) = yieldedTokens tr := rfl

@[simp] theorem yieldedTokens_cons_yieldError (e : String) (tr : List RelayAction) :
    yieldedTokens (RelayAction.yieldError e :: tr) = yieldedTokens tr := rfl

@[simp] theorem eventsOf_nil : eventsOf [] = [] := rfl

@[simp] theorem eventsOf_cons_append (t : String) (tr : List RelayAction) :
    eventsOf (RelayAction.append t :: tr) = eventsOf tr := rfl

@[simp] theorem eventsOf_cons_yieldToken (t : String) (tr : List RelayAction) :
    eventsOf (RelayAction.yieldToken t :: tr) = StreamEvent.token t :: eventsOf tr := rfl

@[simp] theorem eventsOf_cons_setSignal (tr : List RelayAction) :
    eventsOf (RelayAction.setSignal :: tr) = eventsOf tr := rfl

@[simp] theorem eventsOf_cons_yieldError (e : String) (tr : List RelayAction) :
    eventsOf (RelayAction.yieldError e :: tr) = StreamEvent.error e :: eventsOf tr := rfl

@[simp] theorem countSet_nil : countSet [] = 0 := rfl

@[simp] theorem countSet_cons_append (t : String) (tr : List RelayAction) :
    countSet (RelayAction.append t :: tr) = countSet tr := rfl

@[simp] theorem countSet_cons_yieldToken (t : String) (tr : List RelayAction) :
    countSet (RelayAction.yieldToken t :: tr) = countSet tr := rfl

@[simp] theorem countSet_cons_setSignal (tr : List RelayAction) :
    countSet (RelayAction.setSignal :: tr) = countSet tr + 1 := rfl

@[simp] theorem countSet_cons_yieldError (e : String) (tr : List RelayAction) :
    countSet (RelayAction.yieldError e :: tr) = countSet tr := rfl

@[simp] theorem relayLoop_nil (tail : List RelayAction) : relayLoop [] tail = tail := rfl

@[simp] theorem relayLoop_cons (t : String) (ts : List String) (tail : List RelayAction) :
    relayLoop (t :: ts) tail =
      RelayAction.append t :: RelayAction.yieldToken t :: relayLoop ts tail := rfl

theorem relayLoop_append (ts : List String) (t1 t2 : List RelayAction) :
    relayLoop ts (t1 ++ t2) = relayLoop ts t1 ++ t2 := by
  induction ts with
  | nil => rfl
  | cons t ts ih => simp [ih]

theorem appendedTokens_relayLoop (ts : List String) (tail : List RelayAction) :
    appendedTokens (relayLoop ts tail) = ts ++ appendedTokens tail := by
  induction ts with
  | nil => rfl
  | cons t ts ih => simp [ih]

theorem yieldedTokens_relayLoop (ts : List String) (tail : List RelayAction) :
    yieldedTokens (relayLoop ts tail) = ts ++ yieldedTokens tail := by
  induction ts with
  | nil => rfl
  | cons t ts ih => simp [ih]

theorem eventsOf_relayLoop (ts : List String) (tail : List RelayAction) :
    eventsOf (relayLoop ts tail) =
      ts.map StreamEvent.token ++ eventsOf tail := by
  induction ts with
  | nil => rfl
  | cons t ts ih => simp [ih]

theorem countSet_relayLoop (ts : List String) (tail : List RelayAction) :
    countSet (relayLoop ts tail) = countSet tail := by
  induction ts with
  | nil => rfl
  | cons t ts ih => simp [ih]

/-- `collected_tokens` after a full run of `generate` holds every token
the source emitted, in order, whether or not the source failed. -/
theorem appendedTokens_generateTrace (src : GenSource) :
    appendedTokens (generateTrace src) = src.tokens := by
  unfold generateTrace
  rw [appendedTokens_relayLoop]
  cases src.fail <;> simp

theorem yieldedTokens_generateTrace (src : GenSource) :
    yieldedTokens (generateTrace src) = src.tokens := by
  unfold generateTrace
  rw [yieldedTokens_relayLoop]
  cases src.fail <;> simp

theorem eventsOf_generateTrace (src : GenSource) :
    eventsOf (generateTrace src) =
      src.tokens.map StreamEvent.token ++
        (match src.fail with
         | none => []
         | some e => [StreamEvent.error e]) := by
  unfold generateTrace
  rw [eventsOf_relayLoop]
  cases src.fail <;> simp

/-- A full run of `generate` calls `streaming_completed.set()` exactly
once, in the success termination and in the error termination alike. -/
theorem countSet_generateTrace (src : GenSource) :
    countSet (generateTrace src) = 1 := by
  unfold generateTrace
  rw [countSet_relayLoop]
  cases src.fail <;> rfl

/-! ### Lemmas about `runPulls` (early client disconnect) -/

theorem runPulls_nil (k : Nat) : runPulls k [] = [] := by
  cases k <;> rfl

theorem runPulls_append_yield (k : Nat) (t : String) (tr : List RelayAction) :
    runPulls (k + 1) (RelayAction.append t :: RelayAction.yieldToken t :: tr) =
      RelayAction.append t :: RelayAction.yieldToken t :: runPulls k tr := by
  simp [runPulls, isYield]

theorem countSet_runPulls_relayLoop (ts : List String) (tail : List RelayAction) :
    ∀ k : Nat, countSet (runPulls k (relayLoop ts tail)) =
      if ts.length < k then countSet (runPulls (k - ts.length) tail) else 0 := by
  induction ts with
  | nil =>
      intro k
      cases k with
      | zero => simp [runPulls]
      | succ k => simp
  | cons t ts ih =>
      intro k
      cases k with
      | zero => simp [runPulls]
      | succ k =>
          rw [relayLoop_cons, runPulls_append_yield]
          simp only [countSet_cons_append, countSet_cons_yieldToken, ih k,
            List.length_cons, Nat.succ_lt_succ_iff, Nat.succ_sub_succ]

theorem countSet_runPulls_sig (m : Nat) :
    countSet (runPulls m [RelayAction.setSignal]) = if 0 < m then 1 else 0 := by
  cases m with
  | zero => rfl
  | succ m => simp [runPulls, isYield, runPulls_nil]

theorem countSet_runPulls_sigerr (m : Nat) (e : String) :
    countSet (runPulls m [RelayAction.setSignal, RelayAction.yieldError e]) =
      if 0 < m then 1 else 0 := by
  cases m with
  | zero => rfl
  | succ m => simp [runPulls, isYield, runPulls_nil]

/-! ### Concatenation lemmas -/

/-- The `token` field values of the events a trace yields are exactly
its `yieldedTokens`. -/
theorem concatTokens_eventsOf (tr : List RelayAction) :
    concatTokens (eventsOf tr) = String.join (yieldedTokens tr) := by
  unfold concatTokens
  congr 1
  induction tr with
  | nil => rfl
  | cons a tr ih => cases a <;> simp [ih]

/-- Joining the singleton strings of a character list rebuilds the
string with those characters. -/
theorem join_map_char_toString (l : List Char) :
    String.join (l.map Char.toString) = String.mk l := by
  rw [String.join_eq]
  congr 1
  induction l with
  | nil => rfl
  | cons c l ih =>
      simp only [List.map_cons, List.flatten_cons]
      rw [ih]
      rfl

/-- The per-character replay stream of a stored guide carries, in
concatenation, exactly the stored guide. -/
theorem concatTokens_generate_guide_in_db (g : String) :
    concatTokens (generate_guide_in_db g) = g := by
  unfold concatTokens generate_guide_in_db
  rw [List.filterMap_map]
  have h1 : ((fun e => match e with
      | StreamEvent.token t => some t
      | _ => none) ∘ fun c : Char => StreamEvent.token c.toString) =
      fun c : Char => some c.toString := rfl
  rw [h1]
  have h2 : List.filterMap (fun c : Char => some c.toString) g.toList =
      List.map Char.toString g.toList :=
    congrFun (List.filterMap_eq_map Char.toString) g.toList
  rw [h2]
  exact join_map_char_toString g.data

/-! ### Lemmas about the deferred save -/

/-- Looking the step up in the fresh session after `_wait_and_save_guide`
ran yields the step found by uid, with its guide replaced by the joined
tokens. -/
theorem find?_map_update (l : List RoadmapStep) (uid : String) (g : String) :
    (l.map fun s =>
        if s.unique_id == uid then { s with guide := some g } else s).find?
        (fun s => s.unique_id == uid) =
      (l.find? fun s => s.unique_id == uid).map fun s => { s with guide := some g } := by
  induction l with
  | nil => rfl
  | cons a l ih =>
      by_cases h : a.unique_id = uid
      · simp [List.find?_cons, h]
      · have hfa : (if (a.unique_id == uid) = true then { a with guide := some g } else a) = a := by
          simp [h]
        rw [List.map_cons, hfa, List.find?_cons_of_neg _ (by simp [h]),
          List.find?_cons_of_neg _ (by simp [h])]
        exact ih

theorem findStep_wait_and_save (db : DB) (tokens : List String) (uid : String) :
    findStep (wait_and_save_guide db tokens uid) uid =
      (findStep db uid).map fun s => { s with guide := some (String.join tokens) } := by
  unfold findStep wait_and_save_guide
  exact find?_map_update db.steps uid (String.join tokens)

/-! ### Ordering lemmas: appends, yields and the completion signal -/

theorem yieldedTokens_eq_nil (p : List RelayAction)
    (h : ∀ a ∈ p, ∀ t, a ≠ RelayAction.yieldToken t) : yieldedTokens p = [] := by
  induction p with
  | nil => rfl
  | cons a p ih =>
      cases a with
      | yieldToken t => exact absurd rfl (h _ (List.mem_cons_self _ _) t)
      | append t => simpa using ih fun b hb => h b (List.mem_cons_of_mem _ hb)
      | setSignal => simpa using ih fun b hb => h b (List.mem_cons_of_mem _ hb)
      | yieldError e => simpa using ih fun b hb => h b (List.mem_cons_of_mem _ hb)

theorem appendedTokens_eq_nil (p : List RelayAction)
    (h : ∀ a ∈ p, ∀ t, a ≠ RelayAction.append t) : appendedTokens p = [] := by
  induction p with
  | nil => rfl
  | cons a p ih =>
      cases a with
      | append t => exact absurd rfl (h _ (List.mem_cons_self _ _) t)
      | yieldToken t => simpa using ih fun b hb => h b (List.mem_cons_of_mem _ hb)
      | setSignal => simpa using ih fun b hb => h b (List.mem_cons_of_mem _ hb)
      | yieldError e => simpa using ih fun b hb => h b (List.mem_cons_of_mem _ hb)

/-- In every executed prefix of the relay, the tokens already yielded
are a prefix of the tokens already appended to `collected_tokens`:
each append happens before its yield. -/
theorem prefix_yielded_appended (ts : List String) (tail : List RelayAction)
    (htail : ∀ a ∈ tail, ∀ t, a ≠ RelayAction.yieldToken t) :
    ∀ p, p <+: relayLoop ts tail → yieldedTokens p <+: appendedTokens p := by
  induction ts with
  | nil =>
      intro p hp
      rw [relayLoop_nil] at hp
      rw [yieldedTokens_eq_nil p fun a ha => htail a (hp.subset ha)]
      exact List.nil_prefix
  | cons t ts ih =>
      intro p hp
      rw [relayLoop_cons] at hp
      cases p with
      | nil => simp
      | cons a q =>
          rw [List.cons_prefix_cons] at hp
          obtain ⟨rfl, hq⟩ := hp
          cases q with
          | nil => simp
          | cons b r =>
              rw [List.cons_prefix_cons] at hq
              obtain ⟨rfl, hr⟩ := hq
              have h2 : t :: yieldedTokens r <+: t :: appendedTokens r :=
                List.cons_prefix_cons.mpr ⟨rfl, ih r hr⟩
              simpa using h2

/-- In every executed prefix of the relay in which
`streaming_completed.set()` has already run, `collected_tokens` already
holds every token of the source: the signal is set only after the last
append. -/
theorem prefix_set_appended (ts : List String) (tail : List RelayAction)
    (htail : ∀ a ∈ tail, ∀ t, a ≠ RelayAction.append t) :
    ∀ p, p <+: relayLoop ts tail → RelayAction.setSignal ∈ p →
      appendedTokens p = ts := by
  induction ts with
  | nil =>
      intro p hp _
      rw [relayLoop_nil] at hp
      exact appendedTokens_eq_nil p fun a ha => htail a (hp.subset ha)
  | cons t ts ih =>
      intro p hp hset
      rw [relayLoop_cons] at hp
      cases p with
      | nil => simp at hset
      | cons a q =>
          rw [List.cons_prefix_cons] at hp
          obtain ⟨rfl, hq⟩ := hp
          cases q with
          | nil => simp at hset
          | cons b r =>
              rw [List.cons_prefix_cons] at hq
              obtain ⟨rfl, hr⟩ := hq
              have hset' : RelayAction.setSignal ∈ r := by simpa using hset
              simp [ih r hr hset']

/-- In every executed prefix of the error termination of the relay that
already yielded the error event, the signal has already been set: the
`except` clause sets `streaming_completed` before yielding. -/
theorem prefix_err_set (ts : List String) (e : String) :
    ∀ p, p <+: relayLoop ts [RelayAction.setSignal, RelayAction.yieldError e] →
      RelayAction.yieldError e ∈ p → RelayAction.setSignal ∈ p := by
  induction ts with
  | nil =>
      intro p hp herr
      rw [relayLoop_nil] at hp
      cases p with
      | nil => simp at herr
      | cons a q =>
          rw [List.cons_prefix_cons] at hp
          obtain ⟨rfl, _⟩ := hp
          simp
  | cons t ts ih =>
      intro p hp herr
      rw [relayLoop_cons] at hp
      cases p with
      | nil => simp at herr
      | cons a q =>
          rw [List.cons_prefix_cons] at hp
          obtain ⟨rfl, hq⟩ := hp
          cases q with
          | nil => simp at herr
          | cons b r =>
              rw [List.cons_prefix_cons] at hq
              obtain ⟨rfl, hr⟩ := hq
              have herr' : RelayAction.yieldError e ∈ r := by simpa using herr
              simp [ih r hr herr']

/-! ### The claims -/

/-- C1: Round-trip law: for every fresh (cache-miss) guide generation
that completes successfully, the concatenation, in emission order, of
the token values carried by the events the stream relay yields equals
exactly the GuideContent value subsequently written to storage for that
step by the deferred persistence task. -/
theorem C1_round_trip (db : DB) (step_uid : String) (src : GenSource)
    (step : RoadmapStep)
    (hstep : findStep db step_uid = some step)
    (hmiss : pyTruthy step.guide = false)
    (_hok : src.fail = none) :
    (findStep (wait_and_save_guide db
        (appendedTokens (get_step_guide db step_uid src).relayTrace) step_uid)
      step_uid).map (fun s => s.guide) =
      some (some (concatTokens (get_step_guide db step_uid src).stream)) := by
  have hcall : get_step_guide db step_uid src =
      { raised := none
        stream := eventsOf (generateTrace src)
        relayTrace := generateTrace src
        chainInvocations := 1
        accumCreated := true
        signalCreated := true
        saveTaskStarted := true } := by
    unfold get_step_guide
    rw [hstep]
    simp [hmiss]
  rw [hcall]
  rw [findStep_wait_and_save, hstep, appendedTokens_generateTrace,
    concatTokens_eventsOf, yieldedTokens_generateTrace]
  rfl

theorem C1_round_trip_witness :
    (findStep C1db "step123" = some freshStep ∧ pyTruthy freshStep.guide = false ∧
      C1src.fail = none) ∧
    (findStep (wait_and_save_guide C1db
        (appendedTokens (get_step_guide C1db "step123" C1src).relayTrace) "step123")
      "step123").map (fun s => s.guide) =
      some (some (concatTokens (get_step_guide C1db "step123" C1src).stream)) :=
  ⟨⟨by decide, by decide, rfl⟩,
   C1_round_trip C1db "step123" C1src freshStep (by decide) (by decide) rfl⟩

/-- C2 counterexample: a source emitting two tokens, with the consumer
pulling both token events and then disconnecting before exhaustion: the
executed part of the relay never runs the completion set call
(count 0, not 1), because the bare except clause does not catch the
GeneratorExit thrown at the suspended yield. -/
theorem C2_counterexample :
    countSet (runPulls 2 (generateTrace C2src)) = 0 ∧
    (eventsOf (generateTrace C2src)).length = 2 ∧
    countSet (generateTrace C2src) = 1 := by decide

/-- C2 amended: the CompletionSignal is set exactly once when the
consumer drains the stream (normal exhaustion and source error alike),
but if the consumer stops pulling before exhaustion — at or before the
pull that delivers the last token of the source — the signal is never
set: the executed part after k pulls contains one set call when
k exceeds the token count of the source and zero otherwise. -/
theorem C2_signal_on_drain_only (src : GenSource) (k : Nat) :
    countSet (generateTrace src) = 1 ∧
    countSet (runPulls k (generateTrace src)) =
      if src.tokens.length < k then 1 else 0 := by
  refine ⟨countSet_generateTrace src, ?_⟩
  obtain ⟨ts, f⟩ := src
  unfold generateTrace
  cases f with
  | none =>
      rw [countSet_runPulls_relayLoop ts _ k, countSet_runPulls_sig]
      by_cases h : ts.length < k
      · simp [h, Nat.sub_pos_of_lt h]
      · simp [h]
  | some e =>
      rw [countSet_runPulls_relayLoop ts _ k, countSet_runPulls_sigerr]
      by_cases h : ts.length < k
      · simp [h, Nat.sub_pos_of_lt h]
      · simp [h]

/-- C3: for a step whose GuideContent is already stored (cache hit),
get_step_guide invokes the Generation Source zero times, does not
start a Deferred Persistence Task, and returns a replay stream whose
concatenated token values are identical to the stored GuideContent. -/
theorem C3_cache_hit (db : DB) (step_uid : String) (src : GenSource)
    (step : RoadmapStep) (g : String)
    (hstep : findStep db step_uid = some step)
    (hguide : step.guide = some g) (hne : g ≠ "") :
    (get_step_guide db step_uid src).chainInvocations = 0 ∧
    (get_step_guide db step_uid src).saveTaskStarted = false ∧
    concatTokens (get_step_guide db step_uid src).stream = g := by
  have htruthy : pyTruthy step.guide = true := by
    rw [hguide]
    simpa [pyTruthy] using hne
  have hcall : get_step_guide db step_uid src =
      { raised := none
        stream := generate_guide_in_db (pyStr step.guide)
        relayTrace := [], chainInvocations := 0
        accumCreated := false, signalCreated := false, saveTaskStarted := false } := by
    unfold get_step_guide
    rw [hstep]
    simp [htruthy]
  rw [hcall]
  refine ⟨rfl, rfl, ?_⟩
  rw [hguide]
  exact concatTokens_generate_guide_in_db g

theorem C3_cache_hit_witness :
    (findStep C3db "step123" = some cachedStep ∧ cachedStep.guide = some "Hello" ∧
      "Hello" ≠ "") ∧
    ((get_step_guide C3db "step123" C3src).chainInvocations = 0 ∧
      (get_step_guide C3db "step123" C3src).saveTaskStarted = false ∧
      concatTokens (get_step_guide C3db "step123" C3src).stream = "Hello") :=
  ⟨⟨by decide, rfl, by decide⟩,
   C3_cache_hit C3db "step123" C3src cachedStep "Hello" (by decide) rfl (by decide)⟩

/-- C4 counterexample: for the stored guide "Hello world" the replay
stream consists of eleven one-character token events — not exactly one
token event carrying the whole string, as the claim states. -/
theorem C4_counterexample :
    (get_step_guide C4db "step123" C4src).stream.length = 11 ∧
    (get_step_guide C4db "step123" C4src).stream ≠
      [StreamEvent.token "Hello world"] := by decide

/-- C4 amended: for a step whose stored guide is "Hello world",
requesting the guide yields one token event per character of the stored
string, in order (eleven events whose concatenation is "Hello world"),
and the Generation Source is not invoked and no persistence task is
started. -/
theorem C4_per_char_replay :
    (get_step_guide C4db "step123" C4src).stream =
      ((String.toList "Hello world").map fun c => StreamEvent.token c.toString) ∧
    concatTokens (get_step_guide C4db "step123" C4src).stream = "Hello world" ∧
    (get_step_guide C4db "step123" C4src).chainInvocations = 0 ∧
    (get_step_guide C4db "step123" C4src).saveTaskStarted = false := by decide

/-- C5: if the step identifier does not resolve, a not-found condition
is raised before any generation work begins: no Generation Source
invocation, no accumulator or completion signal created, and no
persistence task started. -/
theorem C5_not_found (db : DB) (step_uid : String) (src : GenSource)
    (h : findStep db step_uid = none) :
    get_step_guide db step_uid src =
      { raised := some (PyExc.generic "Roadmap step not found")
        stream := [], relayTrace := [], chainInvocations := 0
        accumCreated := false, signalCreated := false, saveTaskStarted := false } := by
  unfold get_step_guide
  rw [h]

theorem C5_not_found_witness :
    findStep emptyDB "missing" = none ∧
    get_step_guide emptyDB "missing" C5src =
      { raised := some (PyExc.generic "Roadmap step not found")
        stream := [], relayTrace := [], chainInvocations := 0
        accumCreated := false, signalCreated := false, saveTaskStarted := false } :=
  ⟨rfl, C5_not_found emptyDB "missing" C5src rfl⟩

/-- C6 counterexample: on a mid-stream source failure the relay sets
the CompletionSignal BEFORE yielding the error event; the claim asserts
the error event is yielded first and the signal set afterwards. -/
theorem C6_counterexample :
    generateTrace C6src =
      [RelayAction.append "Hello", RelayAction.yieldToken "Hello",
       RelayAction.setSignal, RelayAction.yieldError "boom"] ∧
    generateTrace C6src ≠
      [RelayAction.append "Hello", RelayAction.yieldToken "Hello",
       RelayAction.yieldError "boom", RelayAction.setSignal] := by decide

/-- C6 amended: if the Generation Source raises mid-stream, the relay
yields all token events emitted before the failure, sets the
CompletionSignal exactly once, then yields exactly one final
error-framed event, and the sequence ends with that error event; in
every executed part of the run the error event is preceded by the
signal set. -/
theorem C6_error_termination (src : GenSource) (e : String)
    (hfail : src.fail = some e) :
    eventsOf (generateTrace src) =
      src.tokens.map StreamEvent.token ++ [StreamEvent.error e] ∧
    countSet (generateTrace src) = 1 ∧
    (generateTrace src).getLast? = some (RelayAction.yieldError e) ∧
    (∀ p, p <+: generateTrace src → RelayAction.yieldError e ∈ p →
      RelayAction.setSignal ∈ p) := by
  refine ⟨?_, countSet_generateTrace src, ?_, ?_⟩
  · rw [eventsOf_generateTrace, hfail]
  · unfold generateTrace
    rw [hfail]
    show (relayLoop src.tokens
        ([RelayAction.setSignal] ++ [RelayAction.yieldError e])).getLast? =
      some (RelayAction.yieldError e)
    rw [relayLoop_append]
    simp
  · intro p hp herr
    unfold generateTrace at hp
    rw [hfail] at hp
    exact prefix_err_set src.tokens e p hp herr

theorem C6_error_termination_witness :
    C6src.fail = some "boom" ∧
    (eventsOf (generateTrace C6src) =
        C6src.tokens.map StreamEvent.token ++ [StreamEvent.error "boom"] ∧
      countSet (generateTrace C6src) = 1 ∧
      (generateTrace C6src).getLast? = some (RelayAction.yieldError "boom") ∧
      (∀ p, p <+: generateTrace C6src → RelayAction.yieldError "boom" ∈ p →
        RelayAction.setSignal ∈ p)) :=
  ⟨rfl, C6_error_termination C6src "boom" rfl⟩

/-- C7 counterexample: step "step123" has no stored guide; the source
emits "Hello" and then raises.  After the deferred persistence task
runs, the stored guide is some "Hello" — the partial content — not
absent as the claim states. -/
theorem C7_counterexample :
    (findStep C7db "step123").map (fun s => s.guide) = some none ∧
    (findStep (wait_and_save_guide C7db
        (appendedTokens (get_step_guide C7db "step123" C7src).relayTrace) "step123")
      "step123").map (fun s => s.guide) = some (some "Hello") := by decide

/-- C7 amended: if the Generation Source raises partway through a fresh
generation, the client stream carries the tokens emitted before the
failure followed by one error event, and the deferred persistence task
still persists the partial content: the stored guide becomes the
concatenation of the tokens gathered before the failure. -/
theorem C7_partial_persisted (db : DB) (step_uid : String) (src : GenSource)
    (step : RoadmapStep) (e : String)
    (hstep : findStep db step_uid = some step)
    (hmiss : pyTruthy step.guide = false)
    (hfail : src.fail = some e) :
    eventsOf (get_step_guide db step_uid src).relayTrace =
      src.tokens.map StreamEvent.token ++ [StreamEvent.error e] ∧
    (findStep (wait_and_save_guide db
        (appendedTokens (get_step_guide db step_uid src).relayTrace) step_uid)
      step_uid).map (fun s => s.guide) =
      some (some (String.join src.tokens)) := by
  have hcall : (get_step_guide db step_uid src).relayTrace = generateTrace src := by
    unfold get_step_guide
    rw [hstep]
    simp [hmiss]
  rw [hcall]
  constructor
  · rw [eventsOf_generateTrace, hfail]
  · rw [appendedTokens_generateTrace, findStep_wait_and_save, hstep]
    rfl

theorem C7_partial_persisted_witness :
    (findStep C7db "step123" = some freshStep ∧ pyTruthy freshStep.guide = false ∧
      C7src.fail = some "boom") ∧
    (eventsOf (get_step_guide C7db "step123" C7src).relayTrace =
        C7src.tokens.map StreamEvent.token ++ [StreamEvent.error "boom"] ∧
      (findStep (wait_and_save_guide C7db
          (appendedTokens (get_step_guide C7db "step123" C7src).relayTrace) "step123")
        "step123").map (fun s => s.guide) =
        some (some (String.join C7src.tokens))) :=
  ⟨⟨by decide, by decide, rfl⟩,
   C7_partial_persisted C7db "step123" C7src freshStep "boom" (by decide) (by decide) rfl⟩

/-- C8: in every executed part of the live relay, the token values
already yielded to the HTTP layer are a prefix of the tokens already
appended to the accumulator (each append happens before its yield), and
whenever the CompletionSignal has been set the accumulator already
holds every token of the source (the signal is set only after the last
append). -/
theorem C8_append_before_yield (src : GenSource) (p : List RelayAction)
    (hp : p <+: generateTrace src) :
    yieldedTokens p <+: appendedTokens p ∧
    (RelayAction.setSignal ∈ p → appendedTokens p = src.tokens) := by
  obtain ⟨ts, f⟩ := src
  unfold generateTrace at hp
  cases f with
  | none =>
      exact ⟨prefix_yielded_appended ts _
          (by intro a ha t; simp at ha; subst ha; simp) p hp,
        fun hs => prefix_set_appended ts _
          (by intro a ha t; simp at ha; subst ha; simp) p hp hs⟩
  | some e =>
      exact ⟨prefix_yielded_appended ts _
          (by intro a ha t; simp at ha; rcases ha with rfl | rfl <;> simp) p hp,
        fun hs => prefix_set_appended ts _
          (by intro a ha t; simp at ha; rcases ha with rfl | rfl <;> simp) p hp hs⟩

theorem C8_append_before_yield_witness :
    ([RelayAction.append "a"] <+: generateTrace C8src) ∧
    (yieldedTokens [RelayAction.append "a"] <+:
        appendedTokens [RelayAction.append "a"] ∧
      (RelayAction.setSignal ∈ [RelayAction.append "a"] →
        appendedTokens [RelayAction.append "a"] = C8src.tokens)) :=
  ⟨by decide,
   C8_append_before_yield C8src [RelayAction.append "a"] (by decide)⟩

/-- C9: get_step_guide and recommend_learning_resources raise the bare
built-in Exception with message "Roadmap step not found" on an
unresolved step — not the domain EntityNotFoundException used by every
other not-found path (toggle_bookmark, get_roadmap_by_uid,
add/remove_learning_resource) — so the app-wide handlers map this
not-found condition to a 500 response instead of 404. -/
theorem C9_not_found_mapped_to_500 (db : DB)
    (step_uid roadmap_uid resource_uid user_uid url nuid : String)
    (src : GenSource) (chain : Option (List String)) (ids : Nat → String)
    (hstep : findStep db step_uid = none)
    (hroadmap : findRoadmap db roadmap_uid = none)
    (hres : db.resources.find? (fun r => r.unique_id == resource_uid) = none) :
    ((get_step_guide db step_uid src).raised =
        some (PyExc.generic "Roadmap step not found") ∧
      (recommend_learning_resources db step_uid chain ids).raised =
        some (PyExc.generic "Roadmap step not found") ∧
      handlerStatus (PyExc.generic "Roadmap step not found") = 500) ∧
    (toggle_bookmark db step_uid user_uid =
        Except.error (PyExc.entityNotFound "로드맵 Step을 조회할 수 없습니다.") ∧
      get_roadmap_by_uid db roadmap_uid =
        Except.error (PyExc.entityNotFound "로드맵을 찾을 수 없습니다.") ∧
      add_learning_resource db step_uid url nuid =
        Except.error (PyExc.entityNotFound "로드맵 Step을 조회할 수 없습니다.") ∧
      remove_learning_resource db resource_uid =
        Except.error (PyExc.entityNotFound "학습 리소스를 조회할 수 없습니다.") ∧
      ∀ m : String, handlerStatus (PyExc.entityNotFound m) = 404) := by
  have hstep2 : db.steps.find? (fun s => s.unique_id == step_uid) = none := hstep
  refine ⟨⟨?_, ?_, rfl⟩, ?_, ?_, ?_, ?_, fun m => rfl⟩
  · unfold get_step_guide
    rw [hstep]
  · unfold recommend_learning_resources
    rw [hstep2]
  · unfold toggle_bookmark
    rw [hstep]
  · unfold get_roadmap_by_uid
    rw [hroadmap]
  · unfold add_learning_resource
    rw [hstep]
  · unfold remove_learning_resource
    rw [hres]

theorem C9_not_found_mapped_to_500_witness :
    (findStep emptyDB "s" = none ∧ findRoadmap emptyDB "r" = none ∧
      emptyDB.resources.find? (fun r => r.unique_id == "lr") = none) ∧
    (((get_step_guide emptyDB "s" C9src).raised =
        some (PyExc.generic "Roadmap step not found") ∧
      (recommend_learning_resources emptyDB "s" none (fun _ => "nid")).raised =
        some (PyExc.generic "Roadmap step not found") ∧
      handlerStatus (PyExc.generic "Roadmap step not found") = 500) ∧
    (toggle_bookmark emptyDB "s" "u" =
        Except.error (PyExc.entityNotFound "로드맵 Step을 조회할 수 없습니다.") ∧
      get_roadmap_by_uid emptyDB "r" =
        Except.error (PyExc.entityNotFound "로드맵을 찾을 수 없습니다.") ∧
      add_learning_resource emptyDB "s" "http" "nid" =
        Except.error (PyExc.entityNotFound "로드맵 Step을 조회할 수 없습니다.") ∧
      remove_learning_resource emptyDB "lr" =
        Except.error (PyExc.entityNotFound "학습 리소스를 조회할 수 없습니다.") ∧
      ∀ m : String, handlerStatus (PyExc.entityNotFound m) = 404)) :=
  ⟨⟨rfl, rfl, rfl⟩,
   C9_not_found_mapped_to_500 emptyDB "s" "r" "lr" "u" "http" "nid"
     C9src none (fun _ => "nid") rfl rfl rfl⟩

/-- C10: create_roadmap and create_subroadmap raise
RoadmapCreatorMaxCountException and create no roadmap (the database is
unchanged) whenever the requesting user already owns 3 or more roadmaps
counting subroadmaps, and the limit check runs before the Generation
Source is invoked (zero chain invocations). -/
theorem C10_creator_limit (db : DB) (user_uid step_uid : String) (user : KakaoUser)
    (chainA chainB : Except String RoadmapChainResult) (idsA idsB : Nat → String)
    (huser : get_user_by_uid db user_uid = Except.ok user)
    (hcount : 3 ≤ (db.roadmaps.filter fun r => r.user_id == user.id).length) :
    create_roadmap db user_uid chainA idsA =
      { raised := some (PyExc.creatorMaxCount "3개 이상의 로드맵 및 서브 로드맵을 생성할 수 없습니다.")
        db := db, chainInvocations := 0, returned := none } ∧
    create_subroadmap db step_uid user_uid chainB idsB =
      { raised := some (PyExc.creatorMaxCount "3개 이상의 로드맵 및 서브 로드맵을 생성할 수 없습니다.")
        db := db, chainInvocations := 0, returned := none } := by
  have hcheck : check_roadmap_creator db user.id = true := by
    unfold check_roadmap_creator
    exact decide_eq_true hcount
  constructor
  · unfold create_roadmap
    rw [huser]
    simp [hcheck]
  · unfold create_subroadmap
    rw [huser]
    simp [hcheck]

theorem C10_creator_limit_witness :
    (get_user_by_uid C10db "user1" = Except.ok C10user ∧
      3 ≤ (C10db.roadmaps.filter fun r => r.user_id == C10user.id).length) ∧
    (create_roadmap C10db "user1" C10chain (fun _ => "newid") =
        { raised := some (PyExc.creatorMaxCount "3개 이상의 로드맵 및 서브 로드맵을 생성할 수 없습니다.")
          db := C10db, chainInvocations := 0, returned := none } ∧
      create_subroadmap C10db "step123" "user1" C10chain (fun _ => "newid") =
        { raised := some (PyExc.creatorMaxCount "3개 이상의 로드맵 및 서브 로드맵을 생성할 수 없습니다.")
          db := C10db, chainInvocations := 0, returned := none }) :=
  ⟨⟨rfl, by decide⟩,
   C10_creator_limit C10db "user1" "step123" C10user C10chain C10chain
     (fun _ => "newid") (fun _ => "newid") rfl (by decide)⟩
